import Mathlib

/-!
Verification of the Baserow row-upsert client (`update_baserow.py`).

The development shallowly embeds the `BaserowUpdater.update_row` pipeline and
its helpers (`find_rows`, the private upsert-dispatch method) as executable
Lean functions over an explicit value model:

* Python dictionaries become insertion-ordered association lists with
  Python-dict semantics for lookup, assignment, membership and `pop`;
* Python values occurring in logical records become the inductive `Value`
  (booleans, integers, strings, datetimes, lists, `None`);
* `datetime` / `date` objects become `PyDateTime` / `PyDate`, with
  `isoformat` and `strftime` modelled over the directives the code uses;
* the remote `TableService` is abstracted by its observable behaviour: the
  row-lookup result is a parameter (`matching`, the list of matched row ids)
  and the performed network calls are recorded in an `Effect` trace;
* the recursive HTTP-retry wrapper shared by `find_rows` and
  `__upsert_row_to_table` is modelled by `retryLoop` over an oracle giving
  the outcome of each attempt.
-/

set_option autoImplicit false

/-- Model of a Python `datetime.datetime` instance. -/
structure PyDateTime where
  year : Nat
  month : Nat
  day : Nat
  hour : Nat
  minute : Nat
  second : Nat
  microsecond : Nat
deriving DecidableEq, Repr

/-- Model of a Python `datetime.date` instance. -/
structure PyDate where
  year : Nat
  month : Nat
  day : Nat
deriving DecidableEq, Repr

/-- Python values that can occur in a logical record or wire payload; the
only list values the pipeline creates or inspects are lists of option
labels, so list values carry strings. -/
inductive Value where
  | vBool : Bool → Value
  | vInt : Int → Value
  | vStr : String → Value
  | vDt : PyDateTime → Value
  | vList : List String → Value
  | vNone : Value
deriving DecidableEq, Repr

/-- Zero-padding of a number to a given width, as Python strftime does. -/
def padNum (n width : Nat) : String :=
  let s := toString n
  if s.length < width then String.mk (List.replicate (width - s.length) '0' ++ s.data) else s

/-- The `date()` projection of a Python datetime. -/
def PyDateTime.date (d : PyDateTime) : PyDate := ⟨d.year, d.month, d.day⟩

/-- Hour on the 12-hour clock, as the strftime directive %I renders it. -/
def PyDateTime.hour12 (d : PyDateTime) : Nat :=
  let h := d.hour % 12
  if h = 0 then 12 else h

/-- AM/PM marker, as the strftime directive %p renders it. -/
def PyDateTime.ampm (d : PyDateTime) : String :=
  if d.hour < 12 then "AM" else "PM"

/-- Interpreter for the strftime directives the code relies on; characters
other than a recognised directive pass through literally. -/
def strftimeGo (d : PyDateTime) : List Char → String
  | [] => ""
  | '%' :: c :: rest =>
    (match c with
     | 'Y' => padNum d.year 4
     | 'm' => padNum d.month 2
     | 'd' => padNum d.day 2
     | 'H' => padNum d.hour 2
     | 'I' => padNum d.hour12 2
     | 'M' => padNum d.minute 2
     | 'S' => padNum d.second 2
     | 'p' => d.ampm
     | 'y' => padNum (d.year % 100) 2
     | '%' => "%"
     | c => String.mk ['%', c]) ++ strftimeGo d rest
  | c :: rest => String.mk [c] ++ strftimeGo d rest

/-- Python `datetime.strftime`. -/
def PyDateTime.strftime (d : PyDateTime) (fmt : String) : String :=
  strftimeGo d fmt.data

/-- Python `date.isoformat()`, also the result of `str(date)`. -/
def PyDate.isoformat (d : PyDate) : String :=
  padNum d.year 4 ++ "-" ++ padNum d.month 2 ++ "-" ++ padNum d.day 2

/-- Python `str` applied to a `date` renders its ISO form. -/
def PyDate.str (d : PyDate) : String := d.isoformat

/-- Widening of a date to the datetime midnight uses, giving `date.strftime`
its semantics (time directives render as zero). -/
def PyDate.toDateTime (d : PyDate) : PyDateTime := ⟨d.year, d.month, d.day, 0, 0, 0, 0⟩

/-- Python `date.strftime`. -/
def PyDate.strftime (d : PyDate) (fmt : String) : String :=
  d.toDateTime.strftime fmt

/-- Python `datetime.isoformat()`: microseconds appear only when nonzero. -/
def PyDateTime.isoformat (d : PyDateTime) : String :=
  d.date.isoformat ++ "T" ++ padNum d.hour 2 ++ ":" ++ padNum d.minute 2 ++ ":" ++
    padNum d.second 2 ++ (if d.microsecond = 0 then "" else "." ++ padNum d.microsecond 6)

/-- A Python dict from strings, as an insertion-ordered association list. -/
abbrev Dict := List (String × Value)

/-- Dict lookup (`d[k]` when the key is present, `d.get(k)` otherwise). -/
def lookupKey {α : Type} : List (String × α) → String → Option α
  | [], _ => none
  | (k, v) :: rest, key => if k = key then some v else lookupKey rest key

/-- Python `k in d`. -/
def containsKey {α : Type} (d : List (String × α)) (k : String) : Bool :=
  (lookupKey d k).isSome

/-- Python dict assignment `d[k] = v`: updates in place when the key exists
(keeping its position), appends at the end otherwise. -/
def setKey {α : Type} : List (String × α) → String → α → List (String × α)
  | [], key, v => [(key, v)]
  | (k, w) :: rest, key, v =>
    if k = key then (k, v) :: rest else (k, w) :: setKey rest key v

/-- Python `d.pop(k, None)`: removes the entry for `k` when present. -/
def eraseKey {α : Type} : List (String × α) → String → List (String × α)
  | [], _ => []
  | (k, v) :: rest, key => if k = key then rest else (k, v) :: eraseKey rest key

/-- One remote column of the table schema, as exposed by the baserowapi field
objects the code reads (`name`, `TYPE`, `is_primary`, `is_read_only`,
`options` for select fields, `date_include_time` and `date_format` for date
fields). Named after the FieldDefinition dataclass of `main.py`. -/
structure FieldDefinition where
  name : String
  TYPE : String
  is_primary : Bool
  is_read_only : Bool
  options : List String
  date_include_time : Bool
  date_format : String
deriving DecidableEq, Repr

/-- Python exceptions raised by the pipeline. -/
inductive PyError where
  | valueError : String → PyError
  | keyError : String → PyError
deriving DecidableEq, Repr

/-- Network calls performed against the remote table service, in order. -/
inductive Effect where
  | query : List (String × Value) → Effect
  | created : Dict → Effect
  | updated : Dict → Effect
deriving DecidableEq, Repr

/-- Outcome of `update_row`: the trace of network calls, the returned row id
or raised exception, and the value the caller-owned record holds afterwards. -/
structure URes where
  effects : List Effect
  result : Except PyError Int
  caller : Dict
deriving Repr

/-- Python `update_data[option] in [1, True]`: since `True == 1` in Python,
this holds exactly for the integer 1 and the boolean True. -/
def isSelected : Value → Bool
  | .vInt 1 => true
  | .vBool true => true
  | _ => false

/-- Whether the record holds a selected (truthy) entry under an option label. -/
def truthyB (ud : Dict) (o : String) : Bool :=
  match lookupKey ud o with
  | some v => isSelected v
  | none => false

/-- The option labels of a column whose record entries are selected, in the
order the options are declared. -/
def truthyKeys (ud : Dict) (opts : List String) : List String :=
  opts.filter (truthyB ud)

/-- Inner loop of the option folding (lines 108-112 of `update_baserow.py`):
for each option label in declaration order, a present entry is appended to
the candidate list when truthy and popped from the working payload. -/
def foldOptionsGo (ud : Dict) (acc : List String) : List String → Dict × List String
  | [] => (ud, acc)
  | opt :: rest =>
    match lookupKey ud opt with
    | none => foldOptionsGo ud acc rest
    | some v =>
      foldOptionsGo (eraseKey ud opt) (if isSelected v then acc ++ [opt] else acc) rest

/-- Candidate collection for one select column. -/
def foldOptionsOne (col : FieldDefinition) (ud : Dict) : Dict × List String :=
  foldOptionsGo ud [] col.options

/-- First option loop (lines 105-116): collect `option_values` per column,
popping consumed option keys, and reject a single select with more than one
collected candidate. -/
def foldOptionsLoop1 :
    List FieldDefinition → Dict → List (String × List String) →
    Except PyError (Dict × List (String × List String))
  | [], ud, ov => .ok (ud, ov)
  | col :: rest, ud, ov =>
    let r := foldOptionsOne col ud
    let ov2 := setKey ov col.name r.2
    if col.TYPE = "single_select" ∧ r.2.length > 1 then
      .error (.valueError ("Multiple options for single select: " ++
        String.intercalate ", " r.2))
    else
      foldOptionsLoop1 rest r.1 ov2

/-- Python `update_data.get(col.name) is not None`. -/
def getIsNotNone (d : Dict) (k : String) : Bool :=
  match lookupKey d k with
  | some Value.vNone => false
  | some _ => true
  | none => false

/-- Body of the second option loop (lines 118-130): skip when no candidate
was collected or an explicit non-None value is present, otherwise write the
single label (single select) or the candidate list (multiple select). -/
def applyOptionOne (col : FieldDefinition) (ud : Dict) (col_option_values : List String) : Dict :=
  if col_option_values.length = 0 then ud
  else if getIsNotNone ud col.name then ud
  else if col.TYPE = "single_select" then
    setKey ud col.name (.vStr (col_option_values.headD ""))
  else
    setKey ud col.name (.vList col_option_values)

/-- Second option loop over all select columns, threading the working
payload; `option_values` lookups default to the empty list, which the first
loop always populated. -/
def applyOptionsLoop2 : List FieldDefinition → Dict → List (String × List String) → Dict
  | [], ud, _ => ud
  | col :: rest, ud, ov =>
    applyOptionsLoop2 rest (applyOptionOne col ud ((lookupKey ov col.name).getD [])) ov

/-- Date rendering of lines 142-157: with `date_include_time`, ISO and US
use `isoformat` and the fixed US pattern, any other token is passed to
`strftime`; without time, ISO and US use the date projection, and any other
token falls back to `str(datetime_value.date())`. -/
def formatDate (col : FieldDefinition) (d : PyDateTime) : String :=
  if col.date_include_time then
    if col.date_format = "ISO" then d.isoformat
    else if col.date_format = "US" then d.strftime "%m/%d/%Y %I:%M:%S %p"
    else d.strftime col.date_format
  else
    if col.date_format = "ISO" then d.date.isoformat
    else if col.date_format = "US" then d.date.strftime "%m/%d/%Y"
    else d.date.str

/-- Date loop (lines 132-157): every date column present in the working
payload must hold a datetime value, which is replaced by its rendering. -/
def dateLoop : List FieldDefinition → Dict → Except PyError Dict
  | [], ud => .ok ud
  | col :: rest, ud =>
    match lookupKey ud col.name with
    | none => dateLoop rest ud
    | some (.vDt d) => dateLoop rest (setKey ud col.name (.vStr (formatDate col d)))
    | some _ => .error (.valueError ("Invalid date value for column: " ++ col.name))

/-- Schema membership check (lines 159-161) over the payload keys in order. -/
def checkSchemaMembership (schemaNames : List String) : List String → Except PyError Unit
  | [] => .ok ()
  | k :: rest =>
    if k ∈ schemaNames then checkSchemaMembership schemaNames rest
    else .error (.valueError ("Column not found in schema: " ++ k))

/-- Filter construction of line 85, `[Filter(x.name, data[x.name]) for x in
primary_cols]`: the subscript raises `KeyError` at the first primary column
missing from the record. -/
def buildFilters (data : Dict) : List FieldDefinition → Except PyError (List (String × Value))
  | [] => .ok []
  | f :: rest =>
    match lookupKey data f.name with
    | none => .error (.keyError f.name)
    | some v => (buildFilters data rest).map (fun fs => (f.name, v) :: fs)

/-- Primary column checks of lines 94-98, in loop order. -/
def checkPrimaryCols (data : Dict) : List FieldDefinition → Except PyError Unit
  | [] => .ok ()
  | c :: rest =>
    if c.is_read_only then .error (.valueError "Primary column is read only")
    else if ¬ containsKey data c.name then .error (.valueError "Primary column is missing")
    else checkPrimaryCols data rest

/-- Python `deepcopy(data)` (line 100): the embedded values are immutable,
so the deep copy is an equal value; all later writes act on this copy and
never on the binding the caller retains. -/
def deepcopy (d : Dict) : Dict := d

/-- The select columns of the schema, in schema order (line 102). -/
def optionCols (schema : List FieldDefinition) : List FieldDefinition :=
  schema.filter (fun x => x.TYPE = "single_select" ∨ x.TYPE = "multiple_select")

/-- The date columns of the schema, in schema order (line 132). -/
def dateCols (schema : List FieldDefinition) : List FieldDefinition :=
  schema.filter (fun x => x.TYPE = "date")

/-- The in-memory normalization of lines 100-157: option folding over a deep
copy of the record, then date rendering. -/
def normalizePayload (schema : List FieldDefinition) (data : Dict) : Except PyError Dict :=
  match foldOptionsLoop1 (optionCols schema) (deepcopy data) [] with
  | .error e => .error e
  | .ok (ud1, ov) => dateLoop (dateCols schema) (applyOptionsLoop2 (optionCols schema) ud1 ov)

/-- `BaserowUpdater.update_row` (lines 79-166). The remote lookup result is
the parameter `matching` (ids of the rows the primary filter matched, the
output of `find_rows`), and `newId` is the id the service would give a
created row (`added_row[0].id`). Network calls appear in the effect trace in
program order; the `caller` component is the value of the record the caller
passed in, observed after the call returns or raises. -/
def update_row (schema : List FieldDefinition) (data : Dict) (matching : List Nat)
    (newId : Nat) : URes :=
  let primary_cols := schema.filter (fun x => x.is_primary)
  if primary_cols.length = 0 then
    ⟨[], .error (.valueError "No primary column found"), data⟩
  else
    match buildFilters data primary_cols with
    | .error e => ⟨[], .error e, data⟩
    | .ok filters =>
      if matching.length > 1 then
        ⟨[.query filters], .error (.valueError "Multiple rows found"), data⟩
      else
        let row_id : Int := if matching.length = 1 then (matching.headD 0 : Nat) else -1
        match checkPrimaryCols data primary_cols with
        | .error e => ⟨[.query filters], .error e, data⟩
        | .ok _ =>
          match normalizePayload schema data with
          | .error e => ⟨[.query filters], .error e, data⟩
          | .ok ud =>
            match checkSchemaMembership (schema.map (fun f => f.name))
                (ud.map (fun kv => kv.1)) with
            | .error e => ⟨[.query filters], .error e, data⟩
            | .ok _ =>
              if row_id = -1 then
                ⟨[.query filters, .created ud], .ok (newId : Nat), data⟩
              else
                ⟨[.query filters, .updated (setKey ud "id" (.vInt row_id))],
                  .ok row_id, data⟩

/-- Outcome of one attempt of a remote call, as seen by the retry wrappers:
success, an `HTTPError` (transport level), or any other exception. Error
payloads are identifiers so that re-raising the same exception is
observable. -/
inductive CallOutcome (α : Type) where
  | ok : α → CallOutcome α
  | httpError : Nat → CallOutcome α
  | otherError : Nat → CallOutcome α
deriving DecidableEq, Repr

/-- The exception a retried call ends with. -/
inductive CallError where
  | http : Nat → CallError
  | other : Nat → CallError
deriving DecidableEq, Repr

/-- The recursive retry structure shared by `find_rows` (lines 65-77) and
`__upsert_row_to_table` (lines 47-63): the underlying service call is the
oracle `attempt` indexed by `retry_count`; on `HTTPError` with
`retry_count < retry_max_count`, sleep `(retry_count + 1) * retry_wait_seconds`
and recurse, otherwise re-raise; any other exception is re-raised at once.
Returns the list of sleeps performed and the final outcome. -/
def retryLoop {α : Type} (attempt : Nat → CallOutcome α)
    (retry_max_count retry_wait_seconds : Nat) :
    Nat → List Nat × Except CallError α
  | retry_count =>
    match attempt retry_count with
    | .ok a => ([], .ok a)
    | .otherError e => ([], .error (.other e))
    | .httpError e =>
      if retry_count < retry_max_count then
        let r := retryLoop attempt retry_max_count retry_wait_seconds (retry_count + 1)
        ((retry_count + 1) * retry_wait_seconds :: r.1, r.2)
      else ([], .error (.http e))
termination_by rc => retry_max_count + 1 - rc
decreasing_by omega

/-- A writable primary text column, for concrete runs. -/
def textPrimary (n : String) : FieldDefinition :=
  ⟨n, "text", true, false, [], false, ""⟩

/-- A one-primary-column schema, for concrete runs. -/
def sampleSchema : List FieldDefinition := [textPrimary "Name"]

/-- A record supplying the primary column of `sampleSchema`. -/
def sampleRecord : Dict := [("Name", Value.vStr "Hello world")]

/-- A multiple-select column with options X, Y, Z, mirroring the folding
example of the specification. -/
def colorCol : FieldDefinition :=
  ⟨"color", "multiple_select", false, false, ["X", "Y", "Z"], false, ""⟩

/-- The record selecting X by 1, Z by True and Y by False. -/
def colorRecord : Dict :=
  [("X", Value.vInt 1), ("Z", Value.vBool true), ("Y", Value.vBool false)]

/-- A date column without time whose format token is the pattern directive
for the day of the month. -/
def dayFormatCol : FieldDefinition :=
  ⟨"when", "date", false, false, [], false, "%d"⟩

/-- A concrete timestamp, 2024-01-05 midnight. -/
def jan5 : PyDateTime := ⟨2024, 1, 5, 0, 0, 0, 0⟩

/-- A schema with two primary columns. -/
def twoPrimarySchema : List FieldDefinition := [textPrimary "P1", textPrimary "P2"]

/-- A record supplying both primary columns of `twoPrimarySchema`. -/
def twoPrimaryRecord : Dict := [("P1", Value.vStr "a"), ("P2", Value.vStr "b")]

/-- An attempt oracle whose first call hits a transport error and whose
second call succeeds. -/
def attemptOnceFailing : Nat → CallOutcome Nat :=
  fun n => if n = 0 then .httpError 500 else .ok 42

/-- A date column without time in ISO format. -/
def isoDateCol : FieldDefinition :=
  ⟨"when", "date", false, false, [], false, "ISO"⟩

/-- A record carrying a key outside `sampleSchema`. -/
def extraRecord : Dict := [("Name", Value.vStr "n"), ("Extra", Value.vInt 2)]

/-!
Helper lemmas about the dictionary embedding.
-/

theorem lookupKey_setKey_self {α : Type} (d : List (String × α)) (k : String) (v : α) :
    lookupKey (setKey d k v) k = some v := by
  induction d with
  | nil => simp [setKey, lookupKey]
  | cons hd tl ih =>
    by_cases h : hd.1 = k
    · simp [setKey, h, lookupKey]
    · simp [setKey, h, lookupKey, ih]

theorem lookupKey_eq_none_of_not_mem {α : Type} (d : List (String × α)) (k : String)
    (h : k ∉ d.map Prod.fst) : lookupKey d k = none := by
  induction d with
  | nil => rfl
  | cons hd tl ih =>
    simp only [List.map_cons, List.mem_cons] at h
    push_neg at h
    simp only [lookupKey]
    rw [if_neg (fun he => h.1 he.symm), ih h.2]

theorem keys_eraseKey_sublist {α : Type} (d : List (String × α)) (k : String) :
    ((eraseKey d k).map Prod.fst).Sublist (d.map Prod.fst) := by
  induction d with
  | nil => simp [eraseKey]
  | cons hd tl ih =>
    by_cases h : hd.1 = k
    · simp only [eraseKey, h, if_pos rfl, List.map_cons]
      exact (List.sublist_cons_self _ _)
    · simp only [eraseKey, if_neg h, List.map_cons]
      exact ih.cons₂ _

theorem nodup_keys_eraseKey {α : Type} (d : List (String × α)) (k : String)
    (h : (d.map Prod.fst).Nodup) : ((eraseKey d k).map Prod.fst).Nodup :=
  h.sublist (keys_eraseKey_sublist d k)

theorem lookupKey_eraseKey {α : Type} (d : List (String × α)) (k k2 : String)
    (h : (d.map Prod.fst).Nodup) :
    lookupKey (eraseKey d k) k2 = if k2 = k then none else lookupKey d k2 := by
  induction d with
  | nil => simp [eraseKey, lookupKey]
  | cons hd tl ih =>
    simp only [List.map_cons, List.nodup_cons] at h
    by_cases hk : hd.1 = k
    · have he : eraseKey (hd :: tl) k = tl := by simp [eraseKey, hk]
      rw [he]
      by_cases h2 : k2 = k
      · subst h2
        rw [if_pos rfl]
        exact lookupKey_eq_none_of_not_mem _ _ (hk ▸ h.1)
      · have h3 : ¬ hd.1 = k2 := fun hh => h2 (hh.symm.trans hk)
        simp [lookupKey, h2, h3]
    · have he : eraseKey (hd :: tl) k = hd :: eraseKey tl k := by
        simp [eraseKey, hk]
      rw [he]
      by_cases h2 : hd.1 = k2
      · have h3 : ¬ k2 = k := fun hh => hk (h2.trans hh)
        simp [lookupKey, h2, h3]
      · by_cases h3 : k2 = k
        · subst h3
          simp [lookupKey, h2, hk, ih h.2]
        · simp [lookupKey, h2, h3, hk, ih h.2]

/-- Joint characterization of the candidate-collection loop: the candidates
are appended in option order, and afterwards every option key is absent from
the working payload while all other keys are untouched. -/
theorem foldOptionsGo_spec (opts : List String) :
    ∀ (ud : Dict) (acc : List String), (ud.map Prod.fst).Nodup → opts.Nodup →
      (foldOptionsGo ud acc opts).2 = acc ++ truthyKeys ud opts ∧
      ∀ k, lookupKey (foldOptionsGo ud acc opts).1 k =
        if k ∈ opts then none else lookupKey ud k := by
  induction opts with
  | nil =>
    intro ud acc _ _
    simp [foldOptionsGo, truthyKeys]
  | cons opt rest ih =>
    intro ud acc hud hopts
    simp only [List.nodup_cons] at hopts
    cases h : lookupKey ud opt with
    | none =>
      have hgo : foldOptionsGo ud acc (opt :: rest) = foldOptionsGo ud acc rest := by
        simp [foldOptionsGo, h]
      have ihr := ih ud acc hud hopts.2
      constructor
      · rw [hgo, ihr.1]
        have ht : truthyB ud opt = false := by simp [truthyB, h]
        simp [truthyKeys, List.filter_cons, ht]
      · intro k
        rw [hgo, ihr.2 k]
        by_cases hk : k = opt
        · subst hk
          by_cases hm : k ∈ rest
          · simp [hm]
          · simp [hm, h]
        · simp [List.mem_cons, hk]
    | some v =>
      have hgo : foldOptionsGo ud acc (opt :: rest) =
          foldOptionsGo (eraseKey ud opt) (if isSelected v then acc ++ [opt] else acc)
            rest := by
        simp [foldOptionsGo, h]
      have hud2 := nodup_keys_eraseKey ud opt hud
      have ihr := ih (eraseKey ud opt) (if isSelected v then acc ++ [opt] else acc)
        hud2 hopts.2
      constructor
      · rw [hgo, ihr.1]
        have hcong : truthyKeys (eraseKey ud opt) rest = truthyKeys ud rest := by
          apply List.filter_congr
          intro o ho
          have hne : o ≠ opt := fun he => hopts.1 (he ▸ ho)
          simp [truthyB, lookupKey_eraseKey ud opt o hud, hne]
        rw [hcong]
        have hto : truthyB ud opt = isSelected v := by simp [truthyB, h]
        by_cases hs : isSelected v
        · simp [truthyKeys, List.filter_cons, hto, hs]
        · simp [truthyKeys, List.filter_cons, hto, hs]
      · intro k
        rw [hgo, ihr.2 k, lookupKey_eraseKey ud opt k hud]
        by_cases hk : k = opt
        · subst hk
          simp
        · simp [List.mem_cons, hk]

/-- When some payload key is outside the schema, the membership check fails
naming an offending key. -/
theorem checkSchemaMembership_err (names : List String) :
    ∀ keys : List String, (∃ k, k ∈ keys ∧ k ∉ names) →
      ∃ k, k ∈ keys ∧ k ∉ names ∧
        checkSchemaMembership names keys =
          .error (.valueError ("Column not found in schema: " ++ k)) := by
  intro keys
  induction keys with
  | nil => rintro ⟨k, hk, _⟩; cases hk
  | cons k0 rest ih =>
    rintro ⟨k, hk, hkn⟩
    by_cases h0 : k0 ∈ names
    · have hkr : k ∈ rest := by
        rcases List.mem_cons.mp hk with h | h
        · exact absurd (h ▸ h0) hkn
        · exact h
      obtain ⟨k2, hk2, hk2n, hc⟩ := ih ⟨k, hkr, hkn⟩
      exact ⟨k2, List.mem_cons_of_mem _ hk2, hk2n, by simp [checkSchemaMembership, h0, hc]⟩
    · exact ⟨k0, List.mem_cons_self _ _, h0, by simp [checkSchemaMembership, h0]⟩

/-- A successful attempt after a streak of transport failures: the loop
sleeps the linearly growing delays and returns the success. -/
theorem retryLoop_ok_after {α : Type} (attempt : Nat → CallOutcome α)
    (m w : Nat) :
    ∀ (k rc : Nat) (a : α), rc + k ≤ m →
      (∀ i, i < k → ∃ e, attempt (rc + i) = .httpError e) →
      attempt (rc + k) = .ok a →
      retryLoop attempt m w rc =
        ((List.range k).map (fun j => (rc + j + 1) * w), .ok a) := by
  intro k
  induction k with
  | zero =>
    intro rc a _ _ hOk
    rw [retryLoop]
    simp only [Nat.add_zero] at hOk
    rw [hOk]
    simp
  | succ k ih =>
    intro rc a hle hFail hOk
    obtain ⟨e, he⟩ := hFail 0 (Nat.succ_pos k)
    rw [retryLoop]
    simp only [Nat.add_zero] at he
    rw [he]
    dsimp only
    have hlt : rc < m := by omega
    rw [if_pos hlt]
    have hrec := ih (rc + 1) a (by omega)
      (fun i hi => by
        obtain ⟨e2, he2⟩ := hFail (i + 1) (by omega)
        exact ⟨e2, by rw [show rc + 1 + i = rc + (i + 1) by omega]; exact he2⟩)
      (by rw [show rc + 1 + k = rc + (k + 1) by omega]; exact hOk)
    rw [hrec, List.range_succ_eq_map]
    simp only [List.map_cons, List.map_map, Prod.mk.injEq]
    refine ⟨?_, trivial⟩
    congr 1
    apply List.map_congr_left
    intro j _
    have hj : rc + 1 + j + 1 = rc + Nat.succ j + 1 := by omega
    simp [Function.comp_apply, hj]

/-- Transport failures on every attempt: the loop sleeps all delays up to
the bound and re-raises the error of the last attempt. -/
theorem retryLoop_exhaust {α : Type} (attempt : Nat → CallOutcome α)
    (m w : Nat) (e : Nat → Nat) :
    ∀ (n rc : Nat), rc + n = m →
      (∀ i, rc ≤ i → i ≤ m → attempt i = .httpError (e i)) →
      retryLoop attempt m w rc =
        ((List.range n).map (fun j => (rc + j + 1) * w), .error (.http (e m))) := by
  intro n
  induction n with
  | zero =>
    intro rc hrc hFail
    rw [retryLoop]
    have h0 : attempt rc = .httpError (e rc) := hFail rc le_rfl (by omega)
    rw [h0]
    dsimp only
    have : ¬ rc < m := by omega
    rw [if_neg this]
    simp [show rc = m by omega]
  | succ n ih =>
    intro rc hrc hFail
    rw [retryLoop]
    have h0 : attempt rc = .httpError (e rc) := hFail rc le_rfl (by omega)
    rw [h0]
    dsimp only
    have hlt : rc < m := by omega
    rw [if_pos hlt]
    have hrec := ih (rc + 1) (by omega) (fun i hi1 hi2 => hFail i (by omega) hi2)
    rw [hrec, List.range_succ_eq_map]
    simp only [List.map_cons, List.map_map, Prod.mk.injEq]
    refine ⟨?_, trivial⟩
    congr 1
    apply List.map_congr_left
    intro j _
    have hj : rc + 1 + j + 1 = rc + Nat.succ j + 1 := by omega
    simp [Function.comp_apply, hj]

/-- Exhaustive shape analysis of `update_row`: it either fails before the
lookup with an empty trace, fails after the lookup with only the query in
the trace, or succeeds with the query followed by exactly one write, an
insert when no row matched and an update carrying the matched row id
otherwise; the caller record is returned unchanged in every case. -/
theorem update_row_shape (schema : List FieldDefinition) (data : Dict)
    (matching : List Nat) (newId : Nat) :
    (∃ e, update_row schema data matching newId = ⟨[], .error e, data⟩) ∨
    (∃ f e, update_row schema data matching newId = ⟨[.query f], .error e, data⟩) ∨
    (∃ f ud, normalizePayload schema data = .ok ud ∧ matching.length ≠ 1 ∧
      update_row schema data matching newId =
        ⟨[.query f, .created ud], .ok (newId : Int), data⟩) ∨
    (∃ f ud, normalizePayload schema data = .ok ud ∧ matching.length = 1 ∧
      update_row schema data matching newId =
        ⟨[.query f, .updated (setKey ud "id" (.vInt (matching.headD 0)))],
          .ok ((matching.headD 0 : Nat) : Int), data⟩) := by
  simp only [update_row]
  split
  · exact Or.inl ⟨_, rfl⟩
  · split
    · exact Or.inl ⟨_, rfl⟩
    · split
      · exact Or.inr (Or.inl ⟨_, _, rfl⟩)
      · split
        · exact Or.inr (Or.inl ⟨_, _, rfl⟩)
        · split
          · exact Or.inr (Or.inl ⟨_, _, rfl⟩)
          · split
            · exact Or.inr (Or.inl ⟨_, _, rfl⟩)
            · split
              · rw [if_neg (by omega : ¬((matching.headD 0 : Nat) : Int) = -1)]
                exact Or.inr (Or.inr (Or.inr ⟨_, _, by assumption, by assumption, rfl⟩))
              · rw [if_pos rfl]
                exact Or.inr (Or.inr (Or.inl ⟨_, _, by assumption, by assumption, rfl⟩))

/-- Claim C1: when the primary-key lookup matches no row, a successful
upsert performs the create call (the trace is the query followed by a
create) and returns the id of the created row; when it matches exactly one
row, a successful upsert attaches that row id to the payload under the
`id` key, performs the update call (the trace is the query followed by an
update and contains no create), and returns the existing id. -/
theorem upsert_dispatch (schema : List FieldDefinition) (data : Dict) (newId i : Nat) :
    (∀ x, (update_row schema data [] newId).result = .ok x →
      x = (newId : Int) ∧
      ∃ f ud, (update_row schema data [] newId).effects = [.query f, .created ud]) ∧
    (∀ x, (update_row schema data [i] newId).result = .ok x →
      x = (i : Int) ∧
      ∃ f ud, (update_row schema data [i] newId).effects =
          [.query f, .updated (setKey ud "id" (.vInt i))] ∧
        lookupKey (setKey ud "id" (.vInt i)) "id" = some (.vInt i)) := by
  constructor
  · intro x hx
    rcases update_row_shape schema data [] newId with
      ⟨e, h⟩ | ⟨f, e, h⟩ | ⟨f, ud, hn, hlen, h⟩ | ⟨f, ud, hn, hlen, h⟩
    · rw [h] at hx; exact absurd hx (by simp)
    · rw [h] at hx; exact absurd hx (by simp)
    · rw [h] at hx
      have hxx : (newId : Int) = x := by simpa using hx
      exact ⟨hxx.symm, f, ud, by rw [h]⟩
    · exact absurd hlen (by simp)
  · intro x hx
    rcases update_row_shape schema data [i] newId with
      ⟨e, h⟩ | ⟨f, e, h⟩ | ⟨f, ud, hn, hlen, h⟩ | ⟨f, ud, hn, hlen, h⟩
    · rw [h] at hx; exact absurd hx (by simp)
    · rw [h] at hx; exact absurd hx (by simp)
    · exact absurd (by simp : ([i].length = 1)) hlen
    · rw [h] at hx
      have hxx : (i : Int) = x := by simpa using hx
      refine ⟨hxx.symm, f, ud, ?_, lookupKey_setKey_self ud "id" _⟩
      rw [h]
      rfl

/-- Witness for C1: both dispatch cases at a concrete schema and record. -/
theorem upsert_dispatch_witness :
    ((5 : Int) = ((5 : Nat) : Int) ∧ ∃ f ud,
      (update_row sampleSchema sampleRecord [] 5).effects = [.query f, .created ud]) ∧
    ((4 : Int) = ((4 : Nat) : Int) ∧ ∃ f ud,
      (update_row sampleSchema sampleRecord [4] 5).effects =
        [.query f, .updated (setKey ud "id" (.vInt 4))] ∧
      lookupKey (setKey ud "id" (.vInt 4)) "id" = some (.vInt 4)) :=
  ⟨(upsert_dispatch sampleSchema sampleRecord 5 4).1 5 rfl,
   (upsert_dispatch sampleSchema sampleRecord 5 4).2 4 rfl⟩

/-- Claim C2 (code bug): a record lacking a primary value makes line 85,
`Filter(x.name, data[x.name])`, raise `KeyError` before the lookup is
issued (the effect trace is empty), so the dedicated check at line 97 that
would raise the missing-primary `ValueError` can never fire; the second
conjunct shows that check is the intended one. -/
theorem missing_primary_raises_keyError :
    update_row sampleSchema [] [] 5 = ⟨[], .error (.keyError "Name"), []⟩ ∧
    checkPrimaryCols [] [textPrimary "Name"] =
      .error (.valueError "Primary column is missing") := ⟨rfl, rfl⟩

/-- Counterexample to claim C3: a schema with two primary columns does not
make upsert fail; the call performs the lookup and the create and returns
the new id. -/
theorem multi_primary_counterexample :
    (twoPrimarySchema.filter (fun x => x.is_primary)).length = 2 ∧
    update_row twoPrimarySchema twoPrimaryRecord [] 7 =
      ⟨[.query [("P1", .vStr "a"), ("P2", .vStr "b")],
        .created [("P1", .vStr "a"), ("P2", .vStr "b")]], .ok 7, twoPrimaryRecord⟩ :=
  ⟨rfl, rfl⟩

/-- Claim C3 (amended): with zero primary columns in the schema, upsert
fails with the no-primary-column SchemaError before any network call (the
effect trace is empty). -/
theorem no_primary_fails_before_network (schema : List FieldDefinition) (data : Dict)
    (matching : List Nat) (newId : Nat)
    (h : (schema.filter (fun x => x.is_primary)).length = 0) :
    update_row schema data matching newId =
      ⟨[], .error (.valueError "No primary column found"), data⟩ := by
  simp only [update_row]
  rw [if_pos h]

/-- Witness for the amended C3 at the empty schema. -/
theorem no_primary_witness :
    (([] : List FieldDefinition).filter (fun x => x.is_primary)).length = 0 ∧
    update_row [] sampleRecord [] 3 =
      ⟨[], .error (.valueError "No primary column found"), sampleRecord⟩ :=
  ⟨rfl, no_primary_fails_before_network [] sampleRecord [] 3 rfl⟩

/-- Claim C4: for a select column, the candidate list collects exactly the
option labels with truthy (1 or True) record entries in option order; all
per-option keys are removed from the working payload and every other key is
untouched; afterwards, an explicit non-None value at the column name makes
the second loop keep the payload unchanged (explicit value wins), and
otherwise a nonempty candidate list is written to the column name as the
single label for a single select or the whole list for a multiple select. -/
theorem option_folding (col : FieldDefinition) (ud : Dict)
    (hopts : col.options.Nodup) (hkeys : (ud.map Prod.fst).Nodup) :
    (foldOptionsOne col ud).2 = truthyKeys ud col.options ∧
    (∀ k, lookupKey (foldOptionsOne col ud).1 k =
      if k ∈ col.options then none else lookupKey ud k) ∧
    (getIsNotNone (foldOptionsOne col ud).1 col.name = true →
      applyOptionOne col (foldOptionsOne col ud).1 (foldOptionsOne col ud).2 =
        (foldOptionsOne col ud).1) ∧
    (getIsNotNone (foldOptionsOne col ud).1 col.name = false →
      (foldOptionsOne col ud).2 ≠ [] →
      applyOptionOne col (foldOptionsOne col ud).1 (foldOptionsOne col ud).2 =
        setKey (foldOptionsOne col ud).1 col.name
          (if col.TYPE = "single_select"
           then Value.vStr ((foldOptionsOne col ud).2.headD "")
           else Value.vList (foldOptionsOne col ud).2)) := by
  have hs := foldOptionsGo_spec col.options ud [] hkeys hopts
  refine ⟨by simpa [foldOptionsOne] using hs.1,
          by simpa [foldOptionsOne] using hs.2, ?_, ?_⟩
  · intro hg
    simp [applyOptionOne, hg]
  · intro hg hne
    have hlen : ¬ (foldOptionsOne col ud).2.length = 0 := by simpa using hne
    by_cases ht : col.TYPE = "single_select" <;>
      simp [applyOptionOne, hg, hlen, ht]

/-- Witness for C4 at the multiple-select example of the specification. -/
theorem option_folding_witness :
    colorCol.options.Nodup ∧ (colorRecord.map Prod.fst).Nodup ∧
    (foldOptionsOne colorCol colorRecord).2 = truthyKeys colorRecord colorCol.options ∧
    applyOptionOne colorCol (foldOptionsOne colorCol colorRecord).1
        (foldOptionsOne colorCol colorRecord).2 =
      setKey (foldOptionsOne colorCol colorRecord).1 colorCol.name
        (Value.vList (foldOptionsOne colorCol colorRecord).2) := by
  have h := option_folding colorCol colorRecord (by decide) (by decide)
  refine ⟨by decide, by decide, h.1, ?_⟩
  rw [h.2.2.2 (by decide) (by decide), if_neg (by decide)]

/-- Counterexample to claim C5: for a without-time date column whose format
token is neither ISO nor US, the code renders `str(value.date())`, the ISO
date, and not the strftime application of the token, which here would give
the bare day number. -/
theorem date_other_format_counterexample :
    formatDate dayFormatCol jan5 = "2024-01-05" ∧
    PyDate.strftime (PyDateTime.date jan5) dayFormatCol.date_format = "05" ∧
    formatDate dayFormatCol jan5 ≠
      PyDate.strftime (PyDateTime.date jan5) dayFormatCol.date_format :=
  ⟨rfl, rfl, by decide⟩

/-- Claim C5 (amended): for a date column whose format token is neither ISO
nor US, the with-time value is strftime-formatted with the literal token,
while the without-time value is rendered as the ISO date string and the
token is ignored. -/
theorem date_other_format_amended (col : FieldDefinition) (d : PyDateTime)
    (h1 : col.date_format ≠ "ISO") (h2 : col.date_format ≠ "US") :
    (col.date_include_time = true → formatDate col d = d.strftime col.date_format) ∧
    (col.date_include_time = false → formatDate col d = d.date.str) := by
  constructor <;> intro ht <;> simp [formatDate, ht, h1, h2]

/-- Witness for the amended C5 at the day-number format column. -/
theorem date_other_format_amended_witness :
    dayFormatCol.date_format ≠ "ISO" ∧ dayFormatCol.date_format ≠ "US" ∧
    (dayFormatCol.date_include_time = false →
      formatDate dayFormatCol jan5 = jan5.date.str) :=
  ⟨by decide, by decide,
   (date_other_format_amended dayFormatCol jan5 (by decide) (by decide)).2⟩

/-- Claim C6: a date column present in the working payload with a
non-datetime value fails with the invalid-date ValidationError, and a
datetime value never triggers that failure (it is rendered instead). -/
theorem date_validation (col : FieldDefinition) (ud : Dict) :
    (∀ v, lookupKey ud col.name = some v → (∀ d, v ≠ .vDt d) →
      dateLoop [col] ud =
        .error (.valueError ("Invalid date value for column: " ++ col.name))) ∧
    (∀ d, lookupKey ud col.name = some (.vDt d) →
      dateLoop [col] ud = .ok (setKey ud col.name (.vStr (formatDate col d)))) := by
  constructor
  · intro v hv hnd
    cases v <;> first
      | exact absurd rfl (hnd _)
      | simp [dateLoop, hv]
  · intro d hd
    simp [dateLoop, hd]

/-- Witness for C6: a string date value fails, a datetime succeeds. -/
theorem date_validation_witness :
    lookupKey [("when", Value.vStr "x")] isoDateCol.name = some (Value.vStr "x") ∧
    dateLoop [isoDateCol] [("when", Value.vStr "x")] =
      .error (.valueError ("Invalid date value for column: " ++ isoDateCol.name)) ∧
    dateLoop [isoDateCol] [("when", Value.vDt jan5)] =
      .ok (setKey [("when", Value.vDt jan5)] isoDateCol.name
        (.vStr (formatDate isoDateCol jan5))) :=
  ⟨rfl,
   (date_validation isoDateCol [("when", Value.vStr "x")]).1 (Value.vStr "x") rfl
     (fun _ h => Value.noConfusion h),
   (date_validation isoDateCol [("when", Value.vDt jan5)]).2 jan5 rfl⟩

/-- Claim C7: when the lookup result has more than one row, upsert fails
with the ambiguous-match IntegrityError and performs no write call: the
trace holds exactly the lookup query. -/
theorem ambiguous_match_no_write (schema : List FieldDefinition) (data : Dict)
    (matching : List Nat) (newId : Nat) (filters : List (String × Value))
    (h0 : (schema.filter (fun x => x.is_primary)).length ≠ 0)
    (hf : buildFilters data (schema.filter (fun x => x.is_primary)) = .ok filters)
    (hm : matching.length > 1) :
    update_row schema data matching newId =
      ⟨[.query filters], .error (.valueError "Multiple rows found"), data⟩ := by
  simp only [update_row]
  rw [if_neg h0, hf]
  dsimp only
  rw [if_pos hm]

/-- Witness for C7 at a two-row lookup result. -/
theorem ambiguous_match_witness :
    (sampleSchema.filter (fun x => x.is_primary)).length ≠ 0 ∧
    ([3, 7] : List Nat).length > 1 ∧
    update_row sampleSchema sampleRecord [3, 7] 9 =
      ⟨[.query [("Name", .vStr "Hello world")]],
        .error (.valueError "Multiple rows found"), sampleRecord⟩ :=
  ⟨by decide, by decide,
   ambiguous_match_no_write sampleSchema sampleRecord [3, 7] 9
     [("Name", .vStr "Hello world")] (by decide) rfl (by decide)⟩

/-- Claim C8: when the working payload after folding and date rendering
holds a key outside the schema, upsert fails with the unknown-column
SchemaError naming an offending key, and performs no write call: the trace
holds exactly the lookup query. -/
theorem unknown_column_no_write (schema : List FieldDefinition) (data : Dict)
    (matching : List Nat) (newId : Nat) (filters : List (String × Value)) (ud : Dict)
    (h0 : (schema.filter (fun x => x.is_primary)).length ≠ 0)
    (hf : buildFilters data (schema.filter (fun x => x.is_primary)) = .ok filters)
    (hm : ¬ matching.length > 1)
    (hp : checkPrimaryCols data (schema.filter (fun x => x.is_primary)) = .ok ())
    (hn : normalizePayload schema data = .ok ud)
    (hk : ∃ k, k ∈ ud.map (fun kv => kv.1) ∧ k ∉ schema.map (fun f => f.name)) :
    ∃ k, k ∈ ud.map (fun kv => kv.1) ∧ k ∉ schema.map (fun f => f.name) ∧
      update_row schema data matching newId =
        ⟨[.query filters],
          .error (.valueError ("Column not found in schema: " ++ k)), data⟩ := by
  obtain ⟨k, hk1, hk2, hc⟩ :=
    checkSchemaMembership_err (schema.map (fun f => f.name)) (ud.map (fun kv => kv.1)) hk
  refine ⟨k, hk1, hk2, ?_⟩
  simp only [update_row]
  rw [if_neg h0, hf]
  dsimp only
  rw [if_neg hm, hp]
  dsimp only
  rw [hn]
  dsimp only
  rw [hc]

/-- Witness for C8: a record carrying a key outside the schema. -/
theorem unknown_column_witness :
    (sampleSchema.filter (fun x => x.is_primary)).length ≠ 0 ∧
    normalizePayload sampleSchema extraRecord = .ok extraRecord ∧
    (∃ k, k ∈ extraRecord.map (fun kv => kv.1) ∧
      k ∉ sampleSchema.map (fun f => f.name) ∧
      update_row sampleSchema extraRecord [] 5 =
        ⟨[.query [("Name", .vStr "n")]],
          .error (.valueError ("Column not found in schema: " ++ k)), extraRecord⟩) :=
  ⟨by decide, rfl,
   unknown_column_no_write sampleSchema extraRecord [] 5 [("Name", .vStr "n")]
     extraRecord (by decide) rfl (by decide) rfl rfl ⟨"Extra", by decide, by decide⟩⟩

/-- Claim C9: the retry wrapper shared by the lookup and the write calls
propagates a non-transport failure at once with no sleep; a success after
`k ≤ retryMaxCount` transport failures is returned after sleeping the
linear backoff delays `1*w, ..., k*w`; and transport failures on every
attempt make it sleep all `retryMaxCount` delays and re-raise the failure
of the last attempt unchanged. -/
theorem retry_policy {α : Type} (attempt : Nat → CallOutcome α) (m w : Nat) :
    (∀ e, attempt 0 = .otherError e →
      retryLoop attempt m w 0 = ([], .error (.other e))) ∧
    (∀ k a, k ≤ m → (∀ i, i < k → ∃ e, attempt i = .httpError e) →
      attempt k = .ok a →
      retryLoop attempt m w 0 = ((List.range k).map (fun j => (j + 1) * w), .ok a)) ∧
    (∀ e : Nat → Nat, (∀ i, i ≤ m → attempt i = .httpError (e i)) →
      retryLoop attempt m w 0 =
        ((List.range m).map (fun j => (j + 1) * w), .error (.http (e m)))) := by
  refine ⟨?_, ?_, ?_⟩
  · intro e h
    rw [retryLoop, h]
  · intro k a hk hf ho
    have h := retryLoop_ok_after attempt m w k 0 a (by omega)
      (fun i hi => by simpa using hf i hi) (by simpa using ho)
    simpa using h
  · intro e hf
    have h := retryLoop_exhaust attempt m w e m 0 (by omega)
      (fun i _ h2 => hf i h2)
    simpa using h

/-- Witness for C9: one transport failure, then success after one sleep. -/
theorem retry_policy_witness :
    attemptOnceFailing 1 = .ok 42 ∧
    retryLoop attemptOnceFailing 2 10 0 = ([10], .ok 42) := by
  refine ⟨rfl, ?_⟩
  have h := (retry_policy attemptOnceFailing 2 10).2.1 1 42 (by omega)
    (fun i hi => by
      have hz : i = 0 := by omega
      exact ⟨500, by rw [hz]; rfl⟩)
    rfl
  rw [h]
  rfl

/-- Claim C10: the caller-owned record is unchanged by every call to
upsert, whether it succeeds or raises: all writes act on the deep copy. -/
theorem upsert_preserves_caller (schema : List FieldDefinition) (data : Dict)
    (matching : List Nat) (newId : Nat) :
    (update_row schema data matching newId).caller = data := by
  rcases update_row_shape schema data matching newId with
    ⟨e, h⟩ | ⟨f, e, h⟩ | ⟨f, ud, _, _, h⟩ | ⟨f, ud, _, _, h⟩ <;> rw [h]
